import Mathlib

/-!
# Verification of the RTO compliance checker core

Shallow embedding of the two core modules of the repository:

* `src/ai/modelRouter.js` — the provider failover router
  (`ModelRouter.callWithFailover` and its role/model resolution), and
* `src/compliance/complianceChecker.js` — the compliance decision engine
  (`performBasicChecks`, `combineResults`, `calculateComplianceScore`,
  `determineStatus`, `estimateLocation`, `findMatches`,
  `performAIAnalysis`, `checkCompliance`).

JavaScript numbers are modelled as `ℚ` (with `Math.round` made explicit),
strings as `String`, thrown exceptions as `Except.error`, and the external
regex engine as abstract match/predicate data carried by the rules and by a
`RegexOracle` (the engine's outputs are external inputs; all control flow
around them is translated from the source).
-/

namespace RTOCompliance

/-! ## JavaScript string primitives -/

/-- The JS whitespace class relevant to the regexes split on here. -/
def isJsWS (c : Char) : Bool :=
  c == ' ' || c == '\t' || c == '\n' || c == '\r' || c == '\x0b' || c == '\x0c'

/-- Worker for JS String.prototype.split with a whitespace-run separator:
runs of whitespace separate tokens, a leading or trailing run contributes an
empty token, and the empty string yields a single empty token.  The Boolean
records whether the previous character belonged to a whitespace run. -/
def splitWSAux : List Char → List Char → Bool → List (List Char)
  | [], acc, _ => [acc.reverse]
  | c :: rest, acc, inRun =>
    if isJsWS c then
      if inRun then splitWSAux rest [] true
      else acc.reverse :: splitWSAux rest [] true
    else splitWSAux rest (c :: acc) false

/-- JS `"…".split(/\s+/)` on a character list. -/
def splitWS (cs : List Char) : List (List Char) := splitWSAux cs [] false

/-- JS String.prototype.toLowerCase (ASCII suffices for the needles used). -/
def lowerStr (s : String) : String := String.mk (s.toList.map Char.toLower)

/-- Whether the first list is a leading segment of the second. -/
def listStartsWith : List Char → List Char → Bool
  | [], _ => true
  | _ :: _, [] => false
  | n :: ns, h :: hs => n == h && listStartsWith ns hs

/-- Whether the first list occurs contiguously inside the second. -/
def listInfixOf (needle : List Char) : List Char → Bool
  | [] => needle.isEmpty
  | h :: hs => listStartsWith needle (h :: hs) || listInfixOf needle hs

/-- JS String.prototype.includes. -/
def strContains (hay needle : String) : Bool := listInfixOf needle.toList hay.toList

/-- JS String.prototype.substring(0, n). -/
def takeChars (n : Nat) (s : String) : String := String.mk (s.toList.take n)

/-- JS String.prototype.replace with a plain string argument replaces only the
first occurrence; the source uses it as name.replace('_', ' '). -/
def replaceFirstUSAux : List Char → List Char
  | [] => []
  | c :: rest => if c == '_' then ' ' :: rest else c :: replaceFirstUSAux rest

/-- First-occurrence underscore-to-space replacement, as a String function. -/
def replaceFirstUS (s : String) : String := String.mk (replaceFirstUSAux s.toList)

/-- JS `a || b` on optional strings: the empty string is falsy. -/
def jsOr : Option String → Option String → Option String
  | some s, b => if s = "" then b else some s
  | none, b => b

/-- JS `a || d` collapsing an optional string to a plain default. -/
def jsOrS (o : Option String) (d : String) : String :=
  match jsOr o (some d) with
  | some s => s
  | none => d

/-- JS `a || d` on numbers: 0 is falsy, so a zero value falls back to `d`. -/
def jsNumOrOpt : Option ℚ → ℚ → ℚ
  | none, d => d
  | some q, d => if q = 0 then d else q

/-- JS Math.round for the nonnegative values arising here: half rounds up. -/
def jsRound (q : ℚ) : ℤ := ⌊q + 1/2⌋

/-! ## Provider failover router (src/ai/modelRouter.js) -/

/-- Shape of a provider generateText response (fields read by the router and
the checker: text/content for normalization, model for the metadata). -/
structure GenResult where
  text : Option String
  content : Option String
  model : Option String
deriving DecidableEq

/-- Decidable equality for exception-or-result values. -/
instance {ε α : Type} [DecidableEq ε] [DecidableEq α] : DecidableEq (Except ε α)
  | .error a, .error b =>
    if h : a = b then .isTrue (by rw [h]) else .isFalse fun hc => by cases hc; exact h rfl
  | .error _, .ok _ => .isFalse fun hc => by cases hc
  | .ok _, .error _ => .isFalse fun hc => by cases hc
  | .ok a, .ok b =>
    if h : a = b then .isTrue (by rw [h]) else .isFalse fun hc => by cases hc; exact h rfl

/-- A provider client's capability as the router sees it: its isConfigured
flag and the outcome its generateText produces when it is actually invoked
(`Except.error` models a thrown exception). -/
structure Client where
  configured : Bool
  gen : Except String GenResult
deriving DecidableEq

/-- One entry of config.roles: the source accepts either primary/fallback or
primary_model/fallback_model keys, joined by JS `||`. -/
structure RoleCfg where
  primary : Option String
  primary_model : Option String
  fallback : Option String
  fallback_model : Option String
deriving DecidableEq

/-- One entry of config.models: only the provider key matters to dispatch. -/
structure ModelCfg where
  provider : String
deriving DecidableEq

/-- The router's configuration and client table (assoc lists model the JS
objects this.clients, this.config.roles, this.config.models). -/
structure RouterState where
  clients : List (String × Client)
  roles : List (String × RoleCfg)
  models : List (String × ModelCfg)

/-- The errors callWithFailover can surface: the thrown "Unknown role",
the thrown "No configured AI models available for role: r"
(NoProviderAvailable), and an exception propagated from a provider's
generateText, carried unmodified. -/
inductive RouterError
  | unknownRole (role : String)
  | noProvider (role : String)
  | thrown (msg : String)
deriving DecidableEq

/-- Response normalization from the source:
`text: result.text || result.content || ''`. -/
def normalizeResult (r : GenResult) : GenResult :=
  { r with text := some (jsOrS (jsOr r.text r.content) "") }

/-- Model-key to client-name mapping:
`if (config.models[m]) name = config.models[m].provider`. -/
def resolveClientName (st : RouterState) (m : String) : String :=
  match st.models.lookup m with
  | some mc => mc.provider
  | none => m

/-- The client name the primary of a role resolves to (if any). -/
def resolvedPrimaryName (st : RouterState) (rc : RoleCfg) : Option String :=
  (jsOr rc.primary rc.primary_model).map (resolveClientName st)

/-- The client name the fallback of a role resolves to (if any). -/
def resolvedFallbackName (st : RouterState) (rc : RoleCfg) : Option String :=
  (jsOr rc.fallback rc.fallback_model).map (resolveClientName st)

/-- The primary client object a role resolves to, when present. -/
def primaryClient (st : RouterState) (rc : RoleCfg) : Option Client :=
  (resolvedPrimaryName st rc).bind fun n => st.clients.lookup n

/-- The fallback half of callWithFailover: guard `if (fallbackClientName)`
(undefined or empty name is falsy), then the configured check, then an
unguarded generateText call whose exception propagates; reaching the end
throws NoProviderAvailable.  `invoked` accumulates the instrumentation trace
of clients whose generateText has run. -/
def tryFallback (st : RouterState) (role : String) (fallbackClientName : Option String)
    (invoked : List String) : Except RouterError GenResult × List String :=
  match fallbackClientName with
  | none => (.error (.noProvider role), invoked)
  | some fn =>
    if fn = "" then (.error (.noProvider role), invoked)
    else
      match st.clients.lookup fn with
      | none => (.error (.noProvider role), invoked)
      | some fc =>
        if fc.configured then
          match fc.gen with
          | .ok r => (.ok (normalizeResult r), invoked ++ [fn])
          | .error e => (.error (.thrown e), invoked ++ [fn])
        else (.error (.noProvider role), invoked)

/-- The body of the `if (primaryClient && primaryClient.isConfigured())`
block of callWithFailover: a configured primary is invoked; success returns
the normalized result immediately; a thrown error is caught (logged) and
execution proceeds to the fallback with the primary in the invocation
trace.  An unconfigured primary is never invoked. -/
def attemptConfigured (st : RouterState) (role : String) (rc : RoleCfg)
    (pn : String) (pc : Client) : Except RouterError GenResult × List String :=
  if pc.configured then
    match pc.gen with
    | .ok r => (.ok (normalizeResult r), [pn])
    | .error _ => tryFallback st role (resolvedFallbackName st rc) [pn]
  else tryFallback st role (resolvedFallbackName st rc) []

/-- Looks up the resolved primary client name in this.clients; a missing
client skips straight to the fallback step. -/
def attemptPrimaryClient (st : RouterState) (role : String) (rc : RoleCfg)
    (pn : String) : Except RouterError GenResult × List String :=
  match st.clients.lookup pn with
  | none => tryFallback st role (resolvedFallbackName st rc) []
  | some pc => attemptConfigured st role rc pn pc

/-- Resolves the role's primary model key; an absent primary skips straight
to the fallback step. -/
def attemptPrimary (st : RouterState) (role : String) (rc : RoleCfg) :
    Except RouterError GenResult × List String :=
  match resolvedPrimaryName st rc with
  | none => tryFallback st role (resolvedFallbackName st rc) []
  | some pn => attemptPrimaryClient st role rc pn

/-- ModelRouter.callWithFailover, instrumented with the ordered list of
client names whose generateText actually runs (usage/cost accounting, a
separate stateful concern, is not modelled).  An unknown role throws; then
the sequential statements of the source are the cascade above: primary
resolution, client lookup, configured check and invocation, then the
fallback step. -/
def callWithFailover (st : RouterState) (role : String) :
    Except RouterError GenResult × List String :=
  match st.roles.lookup role with
  | none => (.error (.unknownRole role), [])
  | some rc => attemptPrimary st role rc

/-! ## Compliance checker data model (src/compliance/complianceChecker.js) -/

/-- One raw regex-exec result: matched text and character index. -/
structure MatchInfo where
  text : String
  index : Nat
deriving DecidableEq

/-- A match after location estimation. -/
structure LocatedMatch where
  text : String
  index : Nat
  location : String
deriving DecidableEq

/-- A compiled detector for a rule: `valid` is whether `new RegExp(pattern)`
succeeds (an invalid pattern throws, which findMatches catches), and `exec`
gives the successive results of the global exec loop on a given text
(the regex engine itself is external and abstracted). -/
structure RulePattern where
  valid : Bool
  exec : String → List MatchInfo

/-- A rule record as read from the rule-set JSON (fields the checker uses). -/
structure Rule where
  id : String
  name : String
  category : String
  severity : String
  description : String
  pattern : Option RulePattern
  required : Bool
  correction : String
  examples_compliant : Option String
  asqa_reference : String

/-- A page link as produced by the scraper. -/
structure Link where
  text : String
  href : String
deriving DecidableEq

/-- The content document: the fields performBasicChecks reads. -/
structure Content where
  text : String
  links : List Link
deriving DecidableEq

/-- The two literal regexes inside the web-specific switch (the phone/e-mail
pattern of ws_001 and the fee pattern of ws_003), abstracted as predicates on
the page text supplied by the external regex engine. -/
structure RegexOracle where
  contactInfoText : String → Bool
  feeText : String → Bool

/-- A violation record; rule-based ones carry no source, AI-merged ones are
tagged source = "ai_analysis". -/
structure Violation where
  id : String
  category : String
  severity : String
  description : String
  text_found : String
  location : String
  recommendation : String
  asqa_reference : String
  source : Option String := none
deriving DecidableEq

/-- A required-element record (rtype embeds the JS field named type). -/
structure RequiredElement where
  id : String
  rtype : String
  description : String
  found : Bool
  location : Option String := none
  asqa_reference : String
deriving DecidableEq

/-- A passed-rule record (rtype embeds the JS field named type). -/
structure PassedRule where
  id : String
  category : String
  rtype : String
  description : String
  status : String
  message : String
  location : Option String := none
  asqa_reference : String
deriving DecidableEq

/-- compliance_thresholds.severity_weights from the rule-set JSON. -/
structure Weights where
  critical : ℚ
  moderate : ℚ
  warning : ℚ
deriving DecidableEq

/-- compliance_thresholds.overall_score from the rule-set JSON. -/
structure Thresholds where
  excellent : ℚ
  good : ℚ
  acceptable : ℚ
  needs_improvement : ℚ
deriving DecidableEq

/-- The four rule groups of the rule-set JSON. -/
structure RuleGroups where
  critical_violations : List Rule
  required_terminology : List Rule
  required_disclaimers : List Rule
  web_specific_requirements : List Rule

/-- compliance_thresholds of the rule-set JSON. -/
structure ComplianceThresholds where
  severity_weights : Weights
  overall_score : Thresholds

/-- The loaded rule-set document (this.rules). -/
structure RulesData where
  rules : RuleGroups
  compliance_thresholds : ComplianceThresholds

/-- The intermediate result of performBasicChecks / combineResults. -/
structure BasicResults where
  violations : List Violation
  required_elements : List RequiredElement
  passed_rules : List PassedRule
deriving DecidableEq

/-! ## Rule evaluation -/

/-- ComplianceChecker.estimateLocation: take the prefix of the text before the
match index, split it on whitespace runs, and bucket by the token count. -/
def estimateLocation (text : String) (index : Nat) : String :=
  let before := text.toList.take index
  let wordCount := (splitWS before).length
  if wordCount < 50 then "beginning"
  else if wordCount < 200 then "middle"
  else "end"

/-- The claim-side notion of the word-index of a match start: the number of
whitespace-delimited tokens (nonempty words) strictly before the index.
Stated from the specification's words, for comparison with the code's
`estimateLocation`. -/
def specWordIndex (text : String) (index : Nat) : Nat :=
  ((splitWS (text.toList.take index)).filter (fun t => !t.isEmpty)).length

/-- ComplianceChecker.findMatches: empty pattern or empty text short-circuit;
an invalid pattern (new RegExp throws) is caught and yields the empty match
list; otherwise each exec result is located. -/
def findMatches (text : String) (rule : Rule) : List LocatedMatch :=
  match rule.pattern with
  | none => []
  | some p =>
    if text = "" then []
    else if p.valid then
      (p.exec text).map fun m =>
        { text := m.text, index := m.index, location := estimateLocation text m.index }
    else []

/-- ComplianceChecker.getRuleRecommendation. -/
def getRuleRecommendation (rule : Rule) : String :=
  match rule.examples_compliant with
  | some ex => "Example of compliant text: \"" ++ ex ++ "\""
  | none => "Remove or revise the violating content to meet ASQA requirements"

/-- The violation object built for a critical-violation rule match. -/
def criticalViolation (rule : Rule) (m : LocatedMatch) : Violation :=
  { id := rule.id, category := rule.category, severity := rule.severity,
    description := rule.description, text_found := m.text, location := m.location,
    recommendation := getRuleRecommendation rule, asqa_reference := rule.asqa_reference }

/-- The passed-rule record built when a critical-violation rule has no match. -/
def criticalPassedRecord (rule : Rule) : PassedRule :=
  { id := rule.id, category := rule.category, rtype := "critical_violation",
    description := rule.description, status := "passed",
    message := "No forbidden " ++ replaceFirstUS rule.name ++ " found",
    asqa_reference := rule.asqa_reference }

/-- The critical-violations loop of performBasicChecks. -/
def checkCriticalRules (rules : List Rule) (text : String) :
    List Violation × List PassedRule :=
  match rules with
  | [] => ([], [])
  | rule :: rest =>
    let tailResult := checkCriticalRules rest text
    let ms := findMatches text rule
    if ms.isEmpty then (tailResult.1, criticalPassedRecord rule :: tailResult.2)
    else ((ms.map (criticalViolation rule)) ++ tailResult.1, tailResult.2)

/-- The violation object built for a required-terminology rule match
(recommendation comes from rule.correction). -/
def terminologyViolation (rule : Rule) (m : LocatedMatch) : Violation :=
  { id := rule.id, category := rule.category, severity := rule.severity,
    description := rule.description, text_found := m.text, location := m.location,
    recommendation := rule.correction, asqa_reference := rule.asqa_reference }

/-- The passed-rule record built when a terminology rule has no match. -/
def terminologyPassedRecord (rule : Rule) : PassedRule :=
  { id := rule.id, category := rule.category, rtype := "required_terminology",
    description := rule.description, status := "passed",
    message := "Correct terminology used - no " ++ replaceFirstUS rule.name
      ++ " violations found",
    asqa_reference := rule.asqa_reference }

/-- The required-terminology loop of performBasicChecks. -/
def checkTerminologyRules (rules : List Rule) (text : String) :
    List Violation × List PassedRule :=
  match rules with
  | [] => ([], [])
  | rule :: rest =>
    let tailResult := checkTerminologyRules rest text
    let ms := findMatches text rule
    if ms.isEmpty then (tailResult.1, terminologyPassedRecord rule :: tailResult.2)
    else ((ms.map (terminologyViolation rule)) ++ tailResult.1, tailResult.2)

/-- The violation built for a missing required disclaimer. -/
def missingDisclaimerViolation (rule : Rule) : Violation :=
  { id := rule.id, category := rule.category, severity := rule.severity,
    description := "Missing required disclaimer: " ++ rule.description,
    text_found := "", location := "entire_page",
    recommendation := "Add: " ++ rule.description,
    asqa_reference := rule.asqa_reference }

/-- The required-element record built for a found disclaimer. -/
def disclaimerElement (rule : Rule) : RequiredElement :=
  { id := rule.id, rtype := "disclaimer", description := rule.description,
    found := true, location := none, asqa_reference := rule.asqa_reference }

/-- The required-disclaimers loop of performBasicChecks: zero matches on a
required rule yield a violation; one or more matches yield a required
element; zero matches on a non-required rule yield nothing. -/
def checkDisclaimerRules (rules : List Rule) (text : String) :
    List Violation × List RequiredElement :=
  match rules with
  | [] => ([], [])
  | rule :: rest =>
    let tailResult := checkDisclaimerRules rest text
    let ms := findMatches text rule
    if ms.isEmpty && rule.required then
      (missingDisclaimerViolation rule :: tailResult.1, tailResult.2)
    else if !ms.isEmpty then (tailResult.1, disclaimerElement rule :: tailResult.2)
    else tailResult

/-- The switch of the web-specific loop: per rule id, whether the structural
predicate fires and the location label it reports. -/
def webRuleFound (oracle : RegexOracle) (content : Content) (rule : Rule) :
    Bool × String :=
  if rule.id = "ws_001" then
    if content.links.any fun l =>
        strContains (lowerStr l.text) "contact" || strContains (lowerStr l.href) "contact" then
      (true, "navigation")
    else if oracle.contactInfoText content.text then (true, "content")
    else (false, "")
  else if rule.id = "ws_002" then
    if content.links.any fun l =>
        strContains (lowerStr l.text) "privacy" && strContains (lowerStr l.text) "policy" then
      (true, "navigation")
    else (false, "")
  else if rule.id = "ws_003" then
    if oracle.feeText content.text then (true, "content") else (false, "")
  else if rule.id = "ws_004" then
    if content.links.any fun l =>
        strContains (lowerStr l.text) "refund" && strContains (lowerStr l.text) "policy" then
      (true, "navigation")
    else (false, "")
  else (false, "")

/-- The violation built for a missing required web element. -/
def missingWebViolation (rule : Rule) : Violation :=
  { id := rule.id, category := rule.category, severity := rule.severity,
    description := "Missing required web element: " ++ rule.description,
    text_found := "", location := "entire_page",
    recommendation := "Add: " ++ rule.description,
    asqa_reference := rule.asqa_reference }

/-- The required-element record built for a found web element. -/
def webElement (rule : Rule) (location : String) : RequiredElement :=
  { id := rule.id, rtype := "web_requirement", description := rule.description,
    found := true, location := some location, asqa_reference := rule.asqa_reference }

/-- The passed-rule record built for a found web element. -/
def webPassedRecord (rule : Rule) (location : String) : PassedRule :=
  { id := rule.id, category := rule.category, rtype := "web_requirement",
    description := rule.description, status := "passed",
    message := "Required web element found: " ++ rule.description,
    location := some location, asqa_reference := rule.asqa_reference }

/-- The web-specific-requirements loop of performBasicChecks. -/
def checkWebRules (rules : List Rule) (oracle : RegexOracle) (content : Content) :
    List Violation × List RequiredElement × List PassedRule :=
  match rules with
  | [] => ([], [], [])
  | rule :: rest =>
    let tailResult := checkWebRules rest oracle content
    let fl := webRuleFound oracle content rule
    if !fl.1 && rule.required then
      (missingWebViolation rule :: tailResult.1, tailResult.2.1, tailResult.2.2)
    else if fl.1 then
      (tailResult.1, webElement rule fl.2 :: tailResult.2.1,
        webPassedRecord rule fl.2 :: tailResult.2.2)
    else tailResult

/-- ComplianceChecker.performBasicChecks: the four category loops pushing into
the shared violations / requiredElements / passedRules arrays in order.
The pageType argument is accepted and unused, as in the source. -/
def performBasicChecks (rs : RulesData) (oracle : RegexOracle) (content : Content)
    (_pageType : String) : BasicResults :=
  let text := content.text
  let crit := checkCriticalRules rs.rules.critical_violations text
  let term := checkTerminologyRules rs.rules.required_terminology text
  let disc := checkDisclaimerRules rs.rules.required_disclaimers text
  let web := checkWebRules rs.rules.web_specific_requirements oracle content
  { violations := crit.1 ++ term.1 ++ disc.1 ++ web.1,
    required_elements := disc.2 ++ web.2.1,
    passed_rules := crit.2 ++ term.2 ++ web.2.2 }

/-! ## Merging, scoring, status, recommendations -/

/-- The parsed shape of an AI judgment. -/
structure AIAnalysis where
  compliance_score : ℚ
  violations : List Violation
  recommendations : List String
  summary : String
deriving DecidableEq

/-- What performAIAnalysis returns on success: the judgment plus the model
name and fixed confidence it attaches (processing time, a wall-clock value,
is not modelled). -/
structure AIResults where
  analysis : AIAnalysis
  model : String
  confidence : ℚ
deriving DecidableEq

/-- The duplicate test of combineResults: exact, case-sensitive equality on
the (text_found, category) pair against the accumulating list. -/
def isDup (acc : List Violation) (v : Violation) : Bool :=
  acc.any fun e => e.text_found == v.text_found && e.category == v.category

/-- The source tag added to an appended AI violation. -/
def tagAI (v : Violation) : Violation := { v with source := some "ai_analysis" }

/-- The merge loop of combineResults over the AI-reported violations. -/
def mergeAIViolations : List Violation → List Violation → List Violation
  | acc, [] => acc
  | acc, v :: rest =>
    if isDup acc v then mergeAIViolations acc rest
    else mergeAIViolations (acc ++ [tagAI v]) rest

/-- ComplianceChecker.combineResults for a well-shaped judgment whose
violations field is an array: the form the merge claims are stated against.
`combineResultsJS` below is the same source function over the raw parsed
value; `combineResultsJS_wellFormed` ties the two together. -/
def combineResults (basic : BasicResults) (ai : Option AIResults) : BasicResults :=
  match ai with
  | none => basic
  | some a => { basic with violations := mergeAIViolations basic.violations a.analysis.violations }

/-- The weights[severity] object lookup. -/
def severityLookup (w : Weights) (sev : String) : Option ℚ :=
  if sev = "critical" then some w.critical
  else if sev = "moderate" then some w.moderate
  else if sev = "warning" then some w.warning
  else none

/-- The per-violation deduction: `weights[violation.severity] || 10`
(an unrecognized severity, or a configured weight of 0, gives 10). -/
def weightOf (w : Weights) (sev : String) : ℚ := jsNumOrOpt (severityLookup w sev) 10

/-- The total deduction over a violation list. -/
def totalDeduction (w : Weights) (vs : List Violation) : ℚ :=
  (vs.map fun v => weightOf w v.severity).sum

/-- Stage one of calculateComplianceScore: `let score = 100` then
`score -= weights[violation.severity] || 10` per violation. -/
def rawScore (w : Weights) (results : BasicResults) : ℚ :=
  results.violations.foldl (fun s v => s - weightOf w v.severity) 100

/-- Stage two: `score = Math.max(0, score)`. -/
def clampedScore (w : Weights) (results : BasicResults) : ℚ :=
  max 0 (rawScore w results)

/-- Stage three: the +5 bonus capped at 100, applied when the
required-element list is nonempty and every element's found flag is true. -/
def bonusAdjusted (w : Weights) (results : BasicResults) : ℚ :=
  if results.required_elements.length > 0 then
    if results.required_elements.all (fun el => el.found) then
      min 100 (clampedScore w results + 5)
    else clampedScore w results
  else clampedScore w results

/-- ComplianceChecker.calculateComplianceScore: the three stages above
followed by Math.round.  The weights argument is the severity_weights the
source reads from this.rules. -/
def calculateComplianceScore (w : Weights) (results : BasicResults) : ℤ :=
  jsRound (bonusAdjusted w results)

/-- ComplianceChecker.determineStatus: four inclusive lower-bound thresholds
evaluated from the top.  The thresholds argument is the overall_score table
the source reads from this.rules. -/
def determineStatus (t : Thresholds) (score : ℤ) : String :=
  if t.excellent ≤ (score : ℚ) then "PASS"
  else if t.good ≤ (score : ℚ) then "PASS_WITH_NOTES"
  else if t.acceptable ≤ (score : ℚ) then "NEEDS_REVIEW"
  else if t.needs_improvement ≤ (score : ℚ) then "ACTION_REQUIRED"
  else "FAIL"

/-- JS Set-based dedup keeping the first occurrence, in insertion order. -/
def jsSetDedupAux : List String → List String → List String
  | _, [] => []
  | seen, x :: rest =>
    if x ∈ seen then jsSetDedupAux seen rest
    else x :: jsSetDedupAux (x :: seen) rest

/-- Spread of `new Set(recommendations)` back into an array. -/
def jsSetDedup (l : List String) : List String := jsSetDedupAux [] l

/-- ComplianceChecker.generateRecommendations: violation recommendations
(truthy ones), page-type guidance, the critical banner, then Set dedup. -/
def generateRecommendations (results : BasicResults) (pageType : String) : List String :=
  let fromViolations := results.violations.filterMap fun v =>
    if v.recommendation = "" then none else some v.recommendation
  let pageSpecific :=
    if pageType = "homepage" then
      ["Ensure RTO number is prominently displayed on homepage",
       "Include clear contact information and privacy policy link"]
    else if pageType = "course" then
      ["Use \"unit of competency\" instead of \"course\" when referring to unit codes",
       "Include RPL availability information"]
    else []
  let banner :=
    if results.violations.any (fun v => v.severity = "critical") then
      ["Immediate action required: Address all critical violations before ASQA audit"]
    else []
  jsSetDedup (fromViolations ++ pageSpecific ++ banner)

/-! ## AI analysis path and the engine entry point -/

/-- The raw violations field of a parsed AI response: JSON.parse gives it
any shape.  A falsy value (undefined, null, 0, empty string, false) fails
the merge guard and is skipped; an array iterates normally; a truthy
non-iterable value (a number, a plain object) makes the merge loop's for..of
throw a TypeError carrying the engine's message.  Truthy iterable
non-arrays, such as strings, do not arise in the claims and are not
modelled. -/
inductive AIViolationsField
  | absent
  | list (vs : List Violation)
  | illFormed (msg : String)
deriving DecidableEq

/-- The raw parsed AI judgment exactly as JSON.parse returns it: the same
fields as AIAnalysis, but the violations field keeps its raw shape. -/
structure AIAnalysisJS where
  compliance_score : ℚ
  violations : AIViolationsField
  recommendations : List String
  summary : String
deriving DecidableEq

/-- What performAIAnalysis returns on success, over the raw judgment. -/
structure AIResultsJS where
  analysis : AIAnalysisJS
  model : String
  confidence : ℚ
deriving DecidableEq

/-- The typed judgment a well-shaped raw judgment amounts to. -/
def toTyped (a : AIResultsJS) (vs : List Violation) : AIResults :=
  { analysis :=
      { compliance_score := a.analysis.compliance_score, violations := vs,
        recommendations := a.analysis.recommendations, summary := a.analysis.summary },
    model := a.model, confidence := a.confidence }

/-- The fallback judgment built inline when JSON.parse throws: an empty
violations array, neutral score, and the response text excerpt as the one
recommendation. -/
def fallbackAnalysis (t : String) : AIAnalysisJS :=
  { compliance_score := 75, violations := .list [],
    recommendations := [takeChars 500 t],
    summary := "AI analysis completed but response format needs refinement" }

/-- ComplianceChecker.combineResults over the raw judgment: the source's
`if (aiResults && aiResults.violations)` truthiness guard, then the merge
loop, whose for..of throws on a truthy non-iterable violations value; the
thrown TypeError is the Except.error. -/
def combineResultsJS (basic : BasicResults) (ai : Option AIResultsJS) :
    Except String BasicResults :=
  match ai with
  | none => .ok basic
  | some a =>
    match a.analysis.violations with
    | .absent => .ok basic
    | .list vs => .ok { basic with violations := mergeAIViolations basic.violations vs }
    | .illFormed msg => .error msg

/-- ComplianceChecker.performAIAnalysis, over the router call's outcome and
the JSON parse of the response text (parse none models a JSON.parse throw,
recovered inline by the fallback structure; parse some gives the raw parsed
object, whatever its shape).  A router/provider error is rethrown wrapped
as "AI analysis failed: …". -/
def performAIAnalysis (routerOutcome : Except String GenResult)
    (parse : String → Option AIAnalysisJS) : Except String AIResultsJS :=
  match routerOutcome with
  | .error e => .error ("AI analysis failed: " ++ e)
  | .ok result =>
    let t := result.text.getD ""
    let analysis :=
      match parse t with
      | some a => a
      | none => fallbackAnalysis t
    .ok { analysis := analysis, model := jsOrS result.model "unknown", confidence := 85/100 }

/-- The engine's AI step inside checkCompliance: attempted only when useAI and
isAIConfigured() hold; a thrown AI failure is caught by the inner catch and
degrades to none. -/
def aiResultsOf (useAI aiConfigured : Bool) (routerOutcome : Except String GenResult)
    (parse : String → Option AIAnalysisJS) : Option AIResultsJS :=
  if useAI && aiConfigured then
    match performAIAnalysis routerOutcome parse with
    | .ok a => some a
    | .error _ => none
  else none

/-- The ai_analysis metadata on the result. -/
structure AIMeta where
  model_used : String
  confidence : ℚ
deriving DecidableEq

/-- The ComplianceResult shape (process-unique scan id and timestamps, being
impure metadata, are not modelled). -/
structure ComplianceResult where
  url : String
  page_type : String
  compliance_score : ℤ
  status : String
  violations : List Violation
  required_elements : List RequiredElement
  passed_rules : List PassedRule
  recommendations : List String
  word_count : Nat
  ai_analysis : Option AIMeta
deriving DecidableEq

/-- The options object of checkCompliance (url, pageType,
includeRecommendations, useAI, with their source defaults supplied by
callers). -/
structure CheckOptions where
  url : String
  pageType : String
  includeRecommendations : Bool
  useAI : Bool
deriving DecidableEq

/-- The success result object checkCompliance builds (scan id and
timestamps, being impure metadata, are not modelled). -/
def mkResult (rs : RulesData) (content : Content) (opts : CheckOptions)
    (combined : BasicResults) (ai : Option AIResultsJS) : ComplianceResult :=
  { url := opts.url, page_type := opts.pageType,
    compliance_score :=
      calculateComplianceScore rs.compliance_thresholds.severity_weights combined,
    status := determineStatus rs.compliance_thresholds.overall_score
      (calculateComplianceScore rs.compliance_thresholds.severity_weights combined),
    violations := combined.violations,
    required_elements := combined.required_elements,
    passed_rules := combined.passed_rules,
    recommendations :=
      if opts.includeRecommendations then generateRecommendations combined opts.pageType
      else [],
    word_count := if content.text = "" then 0 else (splitWS content.text.toList).length,
    ai_analysis := ai.map fun a =>
      { model_used := a.model, confidence := jsNumOrOpt (some a.confidence) (8/10) } }

/-- ComplianceChecker.checkCompliance.  A missing rule set throws unwrapped
("Compliance rules not available").  Everything else runs inside the outer
try: rule evaluation, the AI step (whose own failures the inner catch turns
into none), the merge, then scoring, status and recommendations.  In this
embedding the deterministic stages are total functions, and the one live
throw inside the outer try is the merge loop iterating an ill-shaped
violations value; the outer catch rethrows it to the caller as
"Compliance check failed: …".  `aiConfigured` stands for
this.isAIConfigured(); `routerOutcome` and `parse` feed the AI path. -/
def checkCompliance (rules : Option RulesData) (oracle : RegexOracle)
    (aiConfigured : Bool) (content : Content) (opts : CheckOptions)
    (routerOutcome : Except String GenResult)
    (parse : String → Option AIAnalysisJS) : Except String ComplianceResult :=
  match rules with
  | none => .error "Compliance rules not available"
  | some rs =>
    let basic := performBasicChecks rs oracle content opts.pageType
    let aiResults := aiResultsOf opts.useAI aiConfigured routerOutcome parse
    match combineResultsJS basic aiResults with
    | .error msg => .error ("Compliance check failed: " ++ msg)
    | .ok combined => .ok (mkResult rs content opts combined aiResults)

/-! ## Concrete fixtures used by witnesses and counterexamples -/

/-- Joins words with single separating spaces, each word followed by one
space; the text prefix before a match that starts at a word boundary. -/
def joinWords : List (List Char) → List Char
  | [] => []
  | w :: ws => w ++ ' ' :: joinWords ws

/-- Forty-nine one-letter words, then the matched character: a match at
word-index 49 starting at character index 98. -/
def exC6Text : String := String.mk (joinWords (List.replicate 49 ['g']) ++ ['X'])

/-- A generateText result fixture. -/
def genA : GenResult := { text := some "fallback result", content := none, model := some "gpt-4" }

/-- An unconfigured client. -/
def clientOff : Client := { configured := false, gen := .ok genA }

/-- A configured client whose generateText succeeds. -/
def clientOkA : Client := { configured := true, gen := .ok genA }

/-- A configured client whose generateText throws. -/
def clientBoomP : Client := { configured := true, gen := .error "primary exploded" }

/-- A second configured client whose generateText throws differently. -/
def clientBoomF : Client := { configured := true, gen := .error "fallback exploded" }

/-- The COMPLIANCE role of the default config: primary claude, fallback openai. -/
def rcCompliance : RoleCfg :=
  { primary := some "claude", primary_model := none,
    fallback := some "openai", fallback_model := none }

/-- Router state: primary unconfigured, fallback configured and successful. -/
def stPrimaryOff : RouterState :=
  { clients := [("claude", clientOff), ("openai", clientOkA)],
    roles := [("COMPLIANCE", rcCompliance)], models := [] }

/-- Router state: neither primary nor fallback configured. -/
def stBothOff : RouterState :=
  { clients := [("claude", clientOff), ("openai", clientOff)],
    roles := [("COMPLIANCE", rcCompliance)], models := [] }

/-- Router state: both configured, both generateText calls throw. -/
def stBothBoom : RouterState :=
  { clients := [("claude", clientBoomP), ("openai", clientBoomF)],
    roles := [("COMPLIANCE", rcCompliance)], models := [] }

/-- Router state: primary throws, fallback succeeds. -/
def stPrimaryBoom : RouterState :=
  { clients := [("claude", clientBoomP), ("openai", clientOkA)],
    roles := [("COMPLIANCE", rcCompliance)], models := [] }

/-- A rule-produced critical violation. -/
def vCritical : Violation :=
  { id := "cv_001", category := "critical_violations", severity := "critical",
    description := "Employment guarantee claim", text_found := "guaranteed job",
    location := "beginning", recommendation := "Remove the guarantee claim",
    asqa_reference := "Standards 2015 Clause 4.1" }

/-- An AI violation duplicating vCritical on (text_found, category). -/
def vAIDup : Violation :=
  { vCritical with
    id := "ai_1"
    description := "AI-detected duplicate"
    location := "middle"
    recommendation := "Soften the wording" }

/-- An AI violation with a different text_found. -/
def vAINew : Violation :=
  { vCritical with id := "ai_2", text_found := "guaranteed employment" }

/-- Severity weights 50 / 25 / 10. -/
def w50 : Weights := { critical := 50, moderate := 25, warning := 10 }

/-- Severity weights with a fractional critical weight of 12.5. -/
def w125 : Weights := { critical := 25/2, moderate := 10, warning := 5 }

/-- Overall-score thresholds 90 / 80 / 70 / 60. -/
def t0 : Thresholds := { excellent := 90, good := 80, acceptable := 70, needs_improvement := 60 }

/-- One critical violation, no required elements. -/
def resOneCritical : BasicResults :=
  { violations := [vCritical], required_elements := [], passed_rules := [] }

/-- Three critical violations, no required elements. -/
def resThreeCritical : BasicResults :=
  { violations := [vCritical, vCritical, vCritical], required_elements := [],
    passed_rules := [] }

/-- A detector whose new RegExp construction throws. -/
def invalidPattern : RulePattern := { valid := false, exec := fun _ => [] }

/-- A detector that always reports one match at index 0. -/
def goodPattern : RulePattern :=
  { valid := true, exec := fun _ => [{ text := "guaranteed job", index := 0 }] }

/-- A required disclaimer rule with an invalid detector pattern. -/
def badDisclaimerRule : Rule :=
  { id := "rd_bad", name := "rpl_availability", category := "required_disclaimers",
    severity := "moderate", description := "RPL availability statement",
    pattern := some invalidPattern, required := true, correction := "",
    examples_compliant := none, asqa_reference := "Standard 5" }

/-- A critical-violation rule with an invalid detector pattern. -/
def badCriticalRule : Rule :=
  { id := "cv_bad", name := "job_guarantee", category := "critical_violations",
    severity := "critical", description := "Employment guarantee claims",
    pattern := some invalidPattern, required := false, correction := "",
    examples_compliant := none, asqa_reference := "Clause 4.1" }

/-- A critical-violation rule with a valid detector that fires once. -/
def goodCriticalRule : Rule :=
  { id := "cv_good", name := "salary_promise", category := "critical_violations",
    severity := "critical", description := "Salary promise claims",
    pattern := some goodPattern, required := false, correction := "",
    examples_compliant := none, asqa_reference := "Clause 4.1" }

/-- An oracle for which neither text regex fires. -/
def emptyOracle : RegexOracle := { contactInfoText := fun _ => false, feeText := fun _ => false }

/-- A small content document. -/
def exContent : Content := { text := "come study with us", links := [] }

/-- A thresholds block fixture. -/
def defaultCT : ComplianceThresholds := { severity_weights := w50, overall_score := t0 }

/-- A rule set whose only rule is the invalid-pattern required disclaimer. -/
def rulesWithBadDisclaimer : RulesData :=
  { rules :=
      { critical_violations := []
        required_terminology := []
        required_disclaimers := [badDisclaimerRule]
        web_specific_requirements := [] }
    compliance_thresholds := defaultCT }

/-- The same rule set with the invalid-pattern rule removed. -/
def rulesEmpty : RulesData :=
  { rules :=
      { critical_violations := []
        required_terminology := []
        required_disclaimers := []
        web_specific_requirements := [] }
    compliance_thresholds := defaultCT }

/-- Default checkCompliance options: useAI and recommendations on. -/
def opts0 : CheckOptions :=
  { url := "", pageType := "general", includeRecommendations := true, useAI := true }

/-- A JSON-valid but ill-shaped AI judgment: its violations field is a
truthy non-iterable value, so the merge loop throws on it. -/
def aiIllShaped : AIAnalysisJS :=
  { compliance_score := 80,
    violations := .illFormed "aiResults.violations is not iterable",
    recommendations := [], summary := "judgment with a malformed violations field" }

/-- A parse that always returns the ill-shaped judgment. -/
def parseIll : String → Option AIAnalysisJS := fun _ => some aiIllShaped

/-- A parse that always throws (JSON.parse failure). -/
def parseFail : String → Option AIAnalysisJS := fun _ => none

/-! ## Scoring lemmas -/

/-- The JS numeric default is nonnegative when the default and any present
value are. -/
theorem jsNumOrOpt_nonneg (o : Option ℚ) (d : ℚ) (hd : 0 ≤ d)
    (ho : ∀ q, o = some q → 0 ≤ q) : 0 ≤ jsNumOrOpt o d := by
  cases o with
  | none => simpa [jsNumOrOpt]
  | some q =>
    simp only [jsNumOrOpt]
    split_ifs with h0
    · exact hd
    · exact ho q rfl

/-- Every effective severity weight is nonnegative when the configured
weights are. -/
theorem weightOf_nonneg (w : Weights) (h1 : 0 ≤ w.critical) (h2 : 0 ≤ w.moderate)
    (h3 : 0 ≤ w.warning) (sev : String) : 0 ≤ weightOf w sev := by
  unfold weightOf
  apply jsNumOrOpt_nonneg _ _ (by norm_num)
  intro q hq
  unfold severityLookup at hq
  split_ifs at hq <;> simp_all

/-- The total deduction is nonnegative when the configured weights are. -/
theorem totalDeduction_nonneg (w : Weights) (h1 : 0 ≤ w.critical)
    (h2 : 0 ≤ w.moderate) (h3 : 0 ≤ w.warning) (vs : List Violation) :
    0 ≤ totalDeduction w vs := by
  unfold totalDeduction
  apply List.sum_nonneg
  intro x hx
  simp only [List.mem_map] at hx
  obtain ⟨v, _, rfl⟩ := hx
  exact weightOf_nonneg w h1 h2 h3 _

/-- The sequential subtraction loop equals the start value minus the total
deduction. -/
theorem foldl_sub_weights (w : Weights) (vs : List Violation) (c : ℚ) :
    vs.foldl (fun s v => s - weightOf w v.severity) c = c - totalDeduction w vs := by
  induction vs generalizing c with
  | nil => simp [totalDeduction]
  | cons v rest ih =>
    simp only [List.foldl_cons, ih, totalDeduction, List.map_cons, List.sum_cons]
    ring

/-- The clamped score is nonnegative. -/
theorem clampedScore_nonneg (w : Weights) (r : BasicResults) :
    0 ≤ clampedScore w r := le_max_left 0 _

/-- The clamped score is at most 100 when the configured weights are
nonnegative. -/
theorem clampedScore_le_100 (w : Weights) (h1 : 0 ≤ w.critical)
    (h2 : 0 ≤ w.moderate) (h3 : 0 ≤ w.warning) (r : BasicResults) :
    clampedScore w r ≤ 100 := by
  unfold clampedScore rawScore
  rw [foldl_sub_weights]
  apply max_le (by norm_num)
  have := totalDeduction_nonneg w h1 h2 h3 r.violations
  linarith

/-- The bonus-adjusted score stays within the 0..100 band. -/
theorem bonusAdjusted_bounds (w : Weights) (h1 : 0 ≤ w.critical)
    (h2 : 0 ≤ w.moderate) (h3 : 0 ≤ w.warning) (r : BasicResults) :
    0 ≤ bonusAdjusted w r ∧ bonusAdjusted w r ≤ 100 := by
  have hc0 := clampedScore_nonneg w r
  have hc1 := clampedScore_le_100 w h1 h2 h3 r
  unfold bonusAdjusted
  split_ifs
  · exact ⟨le_min (by norm_num) (by linarith), min_le_left _ _⟩
  · exact ⟨hc0, hc1⟩
  · exact ⟨hc0, hc1⟩

/-- Rounding preserves a nonnegative lower bound. -/
theorem jsRound_nonneg (q : ℚ) (h : 0 ≤ q) : 0 ≤ jsRound q := by
  unfold jsRound
  exact Int.le_floor.mpr (by push_cast; linarith)

/-- Rounding preserves the 100 upper bound. -/
theorem jsRound_le_100 (q : ℚ) (h : q ≤ 100) : jsRound q ≤ 100 := by
  unfold jsRound
  have hf : ((⌊q + 1/2⌋ : ℤ) : ℚ) ≤ q + 1/2 := Int.floor_le _
  by_contra hc
  push_neg at hc
  have h101 : (101 : ℤ) ≤ ⌊q + 1/2⌋ := hc
  have : (101 : ℚ) ≤ ((⌊q + 1/2⌋ : ℤ) : ℚ) := by exact_mod_cast h101
  linarith

/-- C5: for every violation list and every required-elements list (any
results), the computed compliance score is bounded, 0 ≤ score ≤ 100,
given the configured severity weights are nonnegative. -/
theorem claim_C5_score_bounds (w : Weights) (h1 : 0 ≤ w.critical)
    (h2 : 0 ≤ w.moderate) (h3 : 0 ≤ w.warning) (results : BasicResults) :
    0 ≤ calculateComplianceScore w results ∧ calculateComplianceScore w results ≤ 100 := by
  have hb := bonusAdjusted_bounds w h1 h2 h3 results
  exact ⟨jsRound_nonneg _ hb.1, jsRound_le_100 _ hb.2⟩

/-- Witness for C5 at concrete weights 50/25/10 and three critical
violations (raw total 150, clamped at 0). -/
theorem claim_C5_score_bounds_witness :
    0 ≤ calculateComplianceScore w50 resThreeCritical
    ∧ calculateComplianceScore w50 resThreeCritical ≤ 100 :=
  claim_C5_score_bounds w50 (by norm_num [w50]) (by norm_num [w50])
    (by norm_num [w50]) resThreeCritical

/-- C4 (amended): one violation of severity critical with
severity_weights.critical = W ≠ 0 and no required elements scores
round(max(0, 100 − W)), where round is Math.round (half up); for integer W
this coincides with max(0, 100 − W). -/
theorem claim_C4_single_critical (w : Weights) (v : Violation) (pr : List PassedRule)
    (hW : w.critical ≠ 0) (hv : v.severity = "critical") :
    calculateComplianceScore w
      { violations := [v], required_elements := [], passed_rules := pr }
      = jsRound (max 0 (100 - w.critical)) := by
  simp [calculateComplianceScore, bonusAdjusted, clampedScore, rawScore,
    weightOf, severityLookup, jsNumOrOpt, hv, hW]

/-- Witness for C4 at W = 50: the score is 50 = max(0, 100 − 50). -/
theorem claim_C4_single_critical_witness :
    calculateComplianceScore w50 resOneCritical = 50 := by
  have h := claim_C4_single_critical w50 vCritical [] (by norm_num [w50]) rfl
  rw [show resOneCritical =
    { violations := [vCritical], required_elements := [], passed_rules := [] } from rfl, h]
  norm_num [jsRound, w50]

/-- C4 counterexample: with W = 12.5 (the spec's own example weight scale)
the code computes round(87.5) = 88, which differs from max(0, 100 − W) =
87.5, so the claimed equality fails at this input. -/
theorem claim_C4_counterexample :
    calculateComplianceScore w125 resOneCritical = 88
    ∧ ¬ ((88 : ℚ) = max 0 (100 - w125.critical)) := by
  constructor
  · simp [calculateComplianceScore, bonusAdjusted, clampedScore, rawScore,
      resOneCritical, vCritical, w125, weightOf, severityLookup, jsNumOrOpt]
    norm_num [jsRound]
  · norm_num [w125]

/-- C7: status classification reads the four descending thresholds with
inclusive lower bounds, top down; a score equal to a threshold maps to that
threshold's (higher) tier. -/
theorem claim_C7_status_boundaries (t : Thresholds) (s : ℤ)
    (hge : t.good < t.excellent) (hag : t.acceptable < t.good)
    (hna : t.needs_improvement < t.acceptable) :
    (t.excellent ≤ (s : ℚ) → determineStatus t s = "PASS")
    ∧ ((s : ℚ) < t.excellent → t.good ≤ (s : ℚ) → determineStatus t s = "PASS_WITH_NOTES")
    ∧ ((s : ℚ) < t.good → t.acceptable ≤ (s : ℚ) → determineStatus t s = "NEEDS_REVIEW")
    ∧ ((s : ℚ) < t.acceptable → t.needs_improvement ≤ (s : ℚ) →
        determineStatus t s = "ACTION_REQUIRED")
    ∧ ((s : ℚ) < t.needs_improvement → determineStatus t s = "FAIL")
    ∧ ((s : ℚ) = t.excellent → determineStatus t s = "PASS")
    ∧ ((s : ℚ) = t.good → determineStatus t s = "PASS_WITH_NOTES")
    ∧ ((s : ℚ) = t.acceptable → determineStatus t s = "NEEDS_REVIEW")
    ∧ ((s : ℚ) = t.needs_improvement → determineStatus t s = "ACTION_REQUIRED") := by
  refine ⟨fun h => ?_, fun h h2 => ?_, fun h h2 => ?_, fun h h2 => ?_, fun h => ?_,
    fun h => ?_, fun h => ?_, fun h => ?_, fun h => ?_⟩
  · simp [determineStatus, h]
  · simp [determineStatus, not_le.mpr h, h2]
  · have hlte : (s : ℚ) < t.excellent := lt_trans h hge
    simp [determineStatus, not_le.mpr hlte, not_le.mpr h, h2]
  · have hltg : (s : ℚ) < t.good := lt_trans h hag
    have hlte : (s : ℚ) < t.excellent := lt_trans hltg hge
    simp [determineStatus, not_le.mpr hlte, not_le.mpr hltg, not_le.mpr h, h2]
  · have hlta : (s : ℚ) < t.acceptable := lt_trans h hna
    have hltg : (s : ℚ) < t.good := lt_trans hlta hag
    have hlte : (s : ℚ) < t.excellent := lt_trans hltg hge
    simp [determineStatus, not_le.mpr hlte, not_le.mpr hltg, not_le.mpr hlta,
      not_le.mpr h]
  · simp [determineStatus, le_of_eq h.symm]
  · have hlt : (s : ℚ) < t.excellent := by rw [h]; exact hge
    simp [determineStatus, not_le.mpr hlt, le_of_eq h.symm]
  · have hltg : (s : ℚ) < t.good := by rw [h]; exact hag
    have hlte : (s : ℚ) < t.excellent := lt_trans hltg hge
    simp [determineStatus, not_le.mpr hlte, not_le.mpr hltg, le_of_eq h.symm]
  · have hlta : (s : ℚ) < t.acceptable := by rw [h]; exact hna
    have hltg : (s : ℚ) < t.good := lt_trans hlta hag
    have hlte : (s : ℚ) < t.excellent := lt_trans hltg hge
    simp [determineStatus, not_le.mpr hlte, not_le.mpr hltg, not_le.mpr hlta,
      le_of_eq h.symm]

/-! ## Merge lemmas -/

/-- The merge loop only ever appends to its accumulator, and the appended
suffix is a subsequence of the tagged AI violations (their relative order is
preserved). -/
theorem mergeAI_decomp : ∀ (a acc : List Violation),
    ∃ s, mergeAIViolations acc a = acc ++ s ∧ s.Sublist (a.map tagAI) := by
  intro a
  induction a with
  | nil => exact fun acc => ⟨[], by simp [mergeAIViolations], List.Sublist.refl _⟩
  | cons v rest ih =>
    intro acc
    by_cases h : isDup acc v = true
    · obtain ⟨s, hs, hsub⟩ := ih acc
      refine ⟨s, by simp [mergeAIViolations, h, hs], ?_⟩
      simpa using hsub.cons (tagAI v)
    · obtain ⟨s, hs, hsub⟩ := ih (acc ++ [tagAI v])
      refine ⟨tagAI v :: s, ?_, ?_⟩
      · simp [mergeAIViolations, h, hs]
      · simpa using hsub.cons₂ (tagAI v)

/-- C8: merging starts from the rule violations unchanged and in order; an
AI violation duplicating (text_found, category) of something already in the
accumulating list is dropped, a novel one is appended (tagged, in AI-response
order, after all rule violations). -/
theorem claim_C8_merge_dedup :
    (∀ (b a : List Violation), (mergeAIViolations b a).take b.length = b)
    ∧ (∀ (b a : List Violation),
        ((mergeAIViolations b a).drop b.length).Sublist (a.map tagAI))
    ∧ (∀ (acc : List Violation) (v : Violation) (rest : List Violation),
        isDup acc v = true →
          mergeAIViolations acc (v :: rest) = mergeAIViolations acc rest)
    ∧ (∀ (acc : List Violation) (v : Violation) (rest : List Violation),
        isDup acc v = false →
          mergeAIViolations acc (v :: rest) = mergeAIViolations (acc ++ [tagAI v]) rest)
    ∧ (∀ (basic : BasicResults) (a : AIResults),
        (combineResults basic (some a)).violations
          = mergeAIViolations basic.violations a.analysis.violations) := by
  refine ⟨?_, ?_, ?_, ?_, ?_⟩
  · intro b a
    obtain ⟨s, hs, _⟩ := mergeAI_decomp a b
    rw [hs]
    exact List.take_left b s
  · intro b a
    obtain ⟨s, hs, hsub⟩ := mergeAI_decomp a b
    rw [hs]
    simpa using hsub
  · intro acc v rest h
    simp [mergeAIViolations, h]
  · intro acc v rest h
    simp [mergeAIViolations, h]
  · intro basic a
    rfl

/-- Witness for C8: merging one duplicate and one novel AI violation into a
one-element rule list keeps the rule violation first and appends only the
novel one, tagged. -/
theorem claim_C8_merge_dedup_witness :
    mergeAIViolations [vCritical] [vAIDup, vAINew] = [vCritical, tagAI vAINew] := by
  have h3 := claim_C8_merge_dedup.2.2.1 [vCritical] vAIDup [vAINew] (by decide)
  have h4 := claim_C8_merge_dedup.2.2.2.1 [vCritical] vAINew [] (by decide)
  rw [h3, h4]
  rfl

/-! ## Required-element lemmas -/

/-- Every required element the disclaimer loop produces has found = true. -/
theorem checkDisclaimerRules_all_found (rules : List Rule) (text : String) :
    ((checkDisclaimerRules rules text).2.all fun el => el.found) = true := by
  induction rules with
  | nil => rfl
  | cons rule rest ih =>
    by_cases h1 : ((findMatches text rule).isEmpty && rule.required) = true
    · simp [checkDisclaimerRules, h1, ih]
    · by_cases h2 : (!(findMatches text rule).isEmpty) = true
      · simp [checkDisclaimerRules, h1, h2, disclaimerElement, ih]
      · simp [checkDisclaimerRules, h1, h2, ih]

/-- Every required element the web-specific loop produces has found = true. -/
theorem checkWebRules_all_found (rules : List Rule) (oracle : RegexOracle)
    (content : Content) :
    ((checkWebRules rules oracle content).2.1.all fun el => el.found) = true := by
  induction rules with
  | nil => rfl
  | cons rule rest ih =>
    cases hf : (webRuleFound oracle content rule).1 with
    | true => simp [checkWebRules, hf, webElement, ih]
    | false =>
      cases hr : rule.required with
      | true => simp [checkWebRules, hf, hr, ih]
      | false => simp [checkWebRules, hf, hr, ih]

/-- Every required element performBasicChecks produces has found = true. -/
theorem performBasicChecks_all_found (rs : RulesData) (oracle : RegexOracle)
    (content : Content) (pt : String) :
    ((performBasicChecks rs oracle content pt).required_elements.all
      fun el => el.found) = true := by
  simp only [performBasicChecks, List.all_append, Bool.and_eq_true]
  exact ⟨checkDisclaimerRules_all_found _ _, checkWebRules_all_found _ _ _⟩

/-- Merging AI results never changes the required-element list. -/
theorem combineResults_required (basic : BasicResults) (ai : Option AIResults) :
    (combineResults basic ai).required_elements = basic.required_elements := by
  cases ai <;> rfl

/-- C10: every engine-produced required element has found = true, so on
engine-produced results the all-required-found check reduces to nonemptiness
and the +5 bonus is applied exactly when at least one required element was
detected. -/
theorem claim_C10_bonus_iff_nonempty (rs : RulesData) (oracle : RegexOracle)
    (content : Content) (pt : String) (ai : Option AIResults) (w : Weights) :
    ((performBasicChecks rs oracle content pt).required_elements.all
      fun el => el.found) = true
    ∧ calculateComplianceScore w (combineResults (performBasicChecks rs oracle content pt) ai)
      = jsRound
          (if (performBasicChecks rs oracle content pt).required_elements.length = 0 then
            clampedScore w (combineResults (performBasicChecks rs oracle content pt) ai)
          else
            min 100
              (clampedScore w (combineResults (performBasicChecks rs oracle content pt) ai)
                + 5)) := by
  have hall := performBasicChecks_all_found rs oracle content pt
  refine ⟨hall, ?_⟩
  unfold calculateComplianceScore bonusAdjusted
  rw [combineResults_required]
  by_cases h : (performBasicChecks rs oracle content pt).required_elements.length = 0
  · simp [h]
  · have hpos : 0 < (performBasicChecks rs oracle content pt).required_elements.length :=
      Nat.pos_of_ne_zero h
    simp [h, hpos, hall]

/-! ## Split and location lemmas -/

/-- Consuming a nonempty all-non-whitespace word moves it into the
accumulator and clears the in-run flag. -/
theorem splitWSAux_word (rest : List Char) :
    ∀ (w : List Char) (acc : List Char) (b : Bool), w ≠ [] →
      (∀ c ∈ w, isJsWS c = false) →
      splitWSAux (w ++ rest) acc b = splitWSAux rest (w.reverse ++ acc) false := by
  intro w
  induction w with
  | nil => intro acc b h _; exact absurd rfl h
  | cons c w ih =>
    intro acc b _ hnc
    have hc : isJsWS c = false := hnc c (List.mem_cons_self c w)
    by_cases hw : w = []
    · subst hw
      simp [splitWSAux, hc]
    · have hstep := ih (c :: acc) false hw fun x hx => hnc x (List.mem_cons_of_mem c hx)
      simp only [List.cons_append, splitWSAux, hc, Bool.false_eq_true, if_false,
        List.append_eq]
      rw [hstep]
      simp [List.append_assoc]

/-- JS split of a words-then-space prefix: each word is one token and the
trailing space contributes a final empty token. -/
theorem splitWS_joinWords : ∀ (ws : List (List Char)),
    (∀ w ∈ ws, w ≠ [] ∧ ∀ c ∈ w, isJsWS c = false) →
    ∀ b, splitWSAux (joinWords ws) [] b = ws ++ [[]] := by
  intro ws
  induction ws with
  | nil => intro _ b; rfl
  | cons w ws ih =>
    intro h b
    have hw := h w (List.mem_cons_self w ws)
    have hws := fun x hx => h x (List.mem_cons_of_mem w hx)
    simp only [joinWords]
    rw [splitWSAux_word (' ' :: joinWords ws) w [] b hw.1 hw.2]
    simp [splitWSAux, isJsWS, ih hws true]

/-- C6 (amended): the prefix split includes a trailing empty token, so the
word count the code compares is the match's word-index plus one; hence a
match at word-index k maps to "beginning" iff k + 1 < 50 (k ≤ 48), to
"middle" iff 50 ≤ k + 1 < 200, and to "end" iff k + 1 ≥ 200; in particular
word-index 49 gives "middle", 50 gives "middle" and 200 gives "end". -/
theorem claim_C6_location_word_offset (ws : List (List Char)) (tail : List Char)
    (h : ∀ w ∈ ws, w ≠ [] ∧ ∀ c ∈ w, isJsWS c = false) :
    estimateLocation (String.mk (joinWords ws ++ tail)) (joinWords ws).length
      = (if ws.length + 1 < 50 then "beginning"
         else if ws.length + 1 < 200 then "middle" else "end")
    ∧ specWordIndex (String.mk (joinWords ws ++ tail)) (joinWords ws).length
      = ws.length := by
  have htake : (String.mk (joinWords ws ++ tail)).toList.take (joinWords ws).length
      = joinWords ws := by
    show (joinWords ws ++ tail).take (joinWords ws).length = joinWords ws
    exact List.take_left _ _
  have hsplit : splitWS (joinWords ws) = ws ++ [[]] := splitWS_joinWords ws h false
  constructor
  · simp only [estimateLocation, htake, hsplit, List.length_append, List.length_cons,
      List.length_nil, Nat.zero_add]
  · have hfil : ws.filter (fun t => !t.isEmpty) = ws := by
      apply List.filter_eq_self.mpr
      intro w hw
      have hne := (h w hw).1
      cases w with
      | nil => exact absurd rfl hne
      | cons c cs => rfl
    simp only [specWordIndex, htake, hsplit, List.filter_append, hfil]
    simp

/-- C6 counterexample: in a text of 49 one-letter words followed by the
match, the match start (index 98) has word-index 49, yet estimateLocation
reports "middle", not the "beginning" the claim requires for index 49. -/
theorem claim_C6_counterexample :
    specWordIndex exC6Text 98 = 49
    ∧ estimateLocation exC6Text 98 = "middle"
    ∧ estimateLocation exC6Text 98 ≠ "beginning" := by
  refine ⟨by decide, by decide, by decide⟩

/-- Witness for C6 at 50 one-letter words: word-index 50, location "middle". -/
theorem claim_C6_location_word_offset_witness :
    estimateLocation (String.mk (joinWords (List.replicate 50 ['h']) ++ ['Y'])) 100
      = "middle"
    ∧ specWordIndex (String.mk (joinWords (List.replicate 50 ['h']) ++ ['Y'])) 100
      = 50 := by
  have h := claim_C6_location_word_offset (List.replicate 50 ['h']) ['Y'] (by decide)
  have hlen : (joinWords (List.replicate 50 ['h'])).length = 100 := by decide
  rw [hlen] at h
  refine ⟨?_, by simpa using h.2⟩
  rw [h.1]
  decide

/-! ## Invalid-pattern lemmas -/

/-- C9 (amended): an invalid detector pattern is caught inside findMatches,
which returns the empty match list, so evaluation continues over the
remaining rules and never aborts; the skipped rule still contributes its
zero-match outcome to the output: a passed-rule record in the
critical-violations loop, and a missing-disclaimer violation in the
required-disclaimers loop when the rule is required. -/
theorem claim_C9_invalid_pattern_skipped :
    (∀ (text : String) (rule : Rule) (p : RulePattern),
        rule.pattern = some p → p.valid = false → findMatches text rule = [])
    ∧ (∀ (bad : Rule) (rest : List Rule) (text : String) (p : RulePattern),
        bad.pattern = some p → p.valid = false →
          checkCriticalRules (bad :: rest) text
            = ((checkCriticalRules rest text).1,
               criticalPassedRecord bad :: (checkCriticalRules rest text).2))
    ∧ (∀ (bad : Rule) (rest : List Rule) (text : String) (p : RulePattern),
        bad.pattern = some p → p.valid = false → bad.required = true →
          checkDisclaimerRules (bad :: rest) text
            = (missingDisclaimerViolation bad :: (checkDisclaimerRules rest text).1,
               (checkDisclaimerRules rest text).2)) := by
  have hfm : ∀ (text : String) (rule : Rule) (p : RulePattern),
      rule.pattern = some p → p.valid = false → findMatches text rule = [] := by
    intro text rule p hp hv
    unfold findMatches
    rw [hp]
    by_cases ht : text = ""
    · simp [ht]
    · simp [ht, hv]
  refine ⟨hfm, ?_, ?_⟩
  · intro bad rest text p hp hv
    simp [checkCriticalRules, hfm text bad p hp hv]
  · intro bad rest text p hp hv hr
    simp [checkDisclaimerRules, hfm text bad p hp hv, hr]

/-- C9 counterexample: a rule set whose single rule is an invalid-pattern
required disclaimer produces a missing-disclaimer violation — the bad rule
does contribute to the evaluation output (the same input without the bad
rule produces no violations). -/
theorem claim_C9_counterexample :
    (performBasicChecks rulesWithBadDisclaimer emptyOracle exContent "general").violations
      = [missingDisclaimerViolation badDisclaimerRule]
    ∧ (performBasicChecks rulesEmpty emptyOracle exContent "general").violations = [] :=
  ⟨rfl, rfl⟩

/-- Witness for C9: with an invalid-pattern critical rule ahead of a valid
one, the bad rule yields only a passed record and the good rule still
evaluates. -/
theorem claim_C9_invalid_pattern_skipped_witness :
    checkCriticalRules [badCriticalRule, goodCriticalRule] "guaranteed job offers here"
      = ([criticalViolation goodCriticalRule
            { text := "guaranteed job", index := 0, location := "beginning" }],
         [criticalPassedRecord badCriticalRule]) := by
  have h := claim_C9_invalid_pattern_skipped.2.1 badCriticalRule [goodCriticalRule]
    "guaranteed job offers here" invalidPattern rfl rfl
  rw [h]
  rfl

/-! ## Router lemmas -/

/-- Any client the fallback step invokes was already in the incoming trace or
is configured under its looked-up name. -/
theorem tryFallback_invoked (st : RouterState) (role : String)
    (fcn : Option String) (inv : List String) (n : String)
    (hn : n ∈ (tryFallback st role fcn inv).2) :
    n ∈ inv ∨ ∃ c, st.clients.lookup n = some c ∧ c.configured = true := by
  cases fcn with
  | none =>
    simp [tryFallback] at hn
    exact Or.inl hn
  | some fn =>
    by_cases hfn : fn = ""
    · simp [tryFallback, hfn] at hn
      exact Or.inl hn
    · cases hlk : st.clients.lookup fn with
      | none =>
        simp [tryFallback, hfn, hlk] at hn
        exact Or.inl hn
      | some fc =>
        cases hcf : fc.configured with
        | false =>
          simp [tryFallback, hfn, hlk, hcf] at hn
          exact Or.inl hn
        | true =>
          cases hg : fc.gen with
          | ok r =>
            simp [tryFallback, hfn, hlk, hcf, hg] at hn
            rcases hn with hn | hn
            · exact Or.inl hn
            · subst hn
              exact Or.inr ⟨fc, hlk, hcf⟩
          | error e =>
            simp [tryFallback, hfn, hlk, hcf, hg] at hn
            rcases hn with hn | hn
            · exact Or.inl hn
            · subst hn
              exact Or.inr ⟨fc, hlk, hcf⟩

/-- C1: a provider's generateText runs only when that provider is configured;
with the primary unconfigured (or unresolvable) and the fallback configured
and successful, the fallback's normalized result is returned and only the
fallback was invoked; with neither configured, the call fails with the
NoProviderAvailable error for the role and nothing was invoked. -/
theorem claim_C1_failover_policy :
    (∀ (st : RouterState) (role : String) (n : String),
        n ∈ (callWithFailover st role).2 →
          ∃ c, st.clients.lookup n = some c ∧ c.configured = true)
    ∧ (∀ (st : RouterState) (role : String) (rc : RoleCfg) (fn : String)
        (fc : Client) (r : GenResult),
        st.roles.lookup role = some rc →
        (∀ pc, primaryClient st rc = some pc → pc.configured = false) →
        resolvedFallbackName st rc = some fn → fn ≠ "" →
        st.clients.lookup fn = some fc → fc.configured = true → fc.gen = .ok r →
          callWithFailover st role = (.ok (normalizeResult r), [fn]))
    ∧ (∀ (st : RouterState) (role : String) (rc : RoleCfg),
        st.roles.lookup role = some rc →
        (∀ pc, primaryClient st rc = some pc → pc.configured = false) →
        (∀ fn fc, resolvedFallbackName st rc = some fn →
          st.clients.lookup fn = some fc → fc.configured = false) →
          callWithFailover st role = (.error (.noProvider role), [])) := by
  refine ⟨?_, ?_, ?_⟩
  · intro st role n hn
    unfold callWithFailover at hn
    cases hr : st.roles.lookup role with
    | none =>
      simp only [hr] at hn
      simp at hn
    | some rc =>
      simp only [hr] at hn
      unfold attemptPrimary at hn
      cases hp : resolvedPrimaryName st rc with
      | none =>
        simp only [hp] at hn
        rcases tryFallback_invoked st role _ [] n hn with h | h
        · simp at h
        · exact h
      | some pn =>
        simp only [hp] at hn
        unfold attemptPrimaryClient at hn
        cases hq : st.clients.lookup pn with
        | none =>
          simp only [hq] at hn
          rcases tryFallback_invoked st role _ [] n hn with h | h
          · simp at h
          · exact h
        | some pc =>
          simp only [hq] at hn
          unfold attemptConfigured at hn
          cases hcf : pc.configured with
          | false =>
            simp only [hcf, Bool.false_eq_true, if_false] at hn
            rcases tryFallback_invoked st role _ [] n hn with h | h
            · simp at h
            · exact h
          | true =>
            simp only [hcf, if_true] at hn
            cases hg : pc.gen with
            | ok r =>
              simp only [hg] at hn
              simp at hn
              subst hn
              exact ⟨pc, hq, hcf⟩
            | error e =>
              simp only [hg] at hn
              rcases tryFallback_invoked st role _ [pn] n hn with h | h
              · simp at h
                subst h
                exact ⟨pc, hq, hcf⟩
              · exact h
  · intro st role rc fn fc r hr hpc hf hfn hlf hcf hg
    have hfb : tryFallback st role (resolvedFallbackName st rc) []
        = (.ok (normalizeResult r), [fn]) := by
      rw [hf]
      simp [tryFallback, hfn, hlf, hcf, hg]
    unfold callWithFailover
    simp only [hr]
    cases hp : resolvedPrimaryName st rc with
    | none =>
      simp only [attemptPrimary, hp]
      exact hfb
    | some pn =>
      simp only [attemptPrimary, hp, attemptPrimaryClient]
      cases hq : st.clients.lookup pn with
      | none =>
        simp only [hq]
        exact hfb
      | some pc =>
        have hc0 : pc.configured = false := hpc pc (by simp [primaryClient, hp, hq])
        simp only [hq, attemptConfigured, hc0, Bool.false_eq_true, if_false]
        exact hfb
  · intro st role rc hr hpc hfc
    have hfb : tryFallback st role (resolvedFallbackName st rc) []
        = (.error (.noProvider role), []) := by
      cases hf : resolvedFallbackName st rc with
      | none => rfl
      | some fn =>
        by_cases hfn : fn = ""
        · simp [tryFallback, hfn]
        · cases hlk : st.clients.lookup fn with
          | none => simp [tryFallback, hfn, hlk]
          | some fc =>
            have hoff := hfc fn fc hf hlk
            simp [tryFallback, hfn, hlk, hoff]
    unfold callWithFailover
    simp only [hr]
    cases hp : resolvedPrimaryName st rc with
    | none =>
      simp only [attemptPrimary, hp]
      exact hfb
    | some pn =>
      simp only [attemptPrimary, hp, attemptPrimaryClient]
      cases hq : st.clients.lookup pn with
      | none =>
        simp only [hq]
        exact hfb
      | some pc =>
        have hc0 : pc.configured = false := hpc pc (by simp [primaryClient, hp, hq])
        simp only [hq, attemptConfigured, hc0, Bool.false_eq_true, if_false]
        exact hfb

/-- Witness for C1: with claude unconfigured and openai configured the
fallback result is returned and only openai's generateText ran; with both
unconfigured the role fails with NoProviderAvailable. -/
theorem claim_C1_failover_policy_witness :
    callWithFailover stPrimaryOff "COMPLIANCE" = (.ok (normalizeResult genA), ["openai"])
    ∧ callWithFailover stBothOff "COMPLIANCE"
      = (.error (.noProvider "COMPLIANCE"), []) := by
  constructor
  · exact claim_C1_failover_policy.2.1 stPrimaryOff "COMPLIANCE" rcCompliance "openai"
      clientOkA genA rfl
      (fun pc h => by
        have h2 : some clientOff = some pc := h
        injection h2 with h3
        rw [← h3]
        rfl)
      rfl (by decide) rfl rfl rfl
  · exact claim_C1_failover_policy.2.2 stBothOff "COMPLIANCE" rcCompliance rfl
      (fun pc h => by
        have h2 : some clientOff = some pc := h
        injection h2 with h3
        rw [← h3]
        rfl)
      (fun fn fc hf hl => by
        have h2 : some "openai" = some fn := hf
        injection h2 with h3
        subst h3
        have h4 : some clientOff = some fc := hl
        injection h4 with h5
        rw [← h5]
        rfl)

/-- C3: a thrown error from a configured primary is absorbed — the call
continues into the fallback step with a result independent of the primary's
error; a thrown error from the configured fallback propagates to the caller
unmodified; end to end, when both throw, the caller sees exactly the
fallback's error. -/
theorem claim_C3_primary_absorbed_fallback_raises :
    (∀ (st : RouterState) (role : String) (rc : RoleCfg) (pn : String)
        (pc : Client) (e : String),
        st.roles.lookup role = some rc →
        resolvedPrimaryName st rc = some pn →
        st.clients.lookup pn = some pc →
        pc.configured = true → pc.gen = .error e →
          callWithFailover st role
            = tryFallback st role (resolvedFallbackName st rc) [pn])
    ∧ (∀ (st : RouterState) (role : String) (fn : String) (fc : Client)
        (e : String) (inv : List String),
        fn ≠ "" → st.clients.lookup fn = some fc →
        fc.configured = true → fc.gen = .error e →
          tryFallback st role (some fn) inv = (.error (.thrown e), inv ++ [fn]))
    ∧ (∀ (st : RouterState) (role : String) (rc : RoleCfg) (pn : String)
        (pc : Client) (e1 : String) (fn : String) (fc : Client) (e2 : String),
        st.roles.lookup role = some rc →
        resolvedPrimaryName st rc = some pn →
        st.clients.lookup pn = some pc →
        pc.configured = true → pc.gen = .error e1 →
        resolvedFallbackName st rc = some fn → fn ≠ "" →
        st.clients.lookup fn = some fc →
        fc.configured = true → fc.gen = .error e2 →
          callWithFailover st role = (.error (.thrown e2), [pn, fn])) := by
  have habs : ∀ (st : RouterState) (role : String) (rc : RoleCfg) (pn : String)
      (pc : Client) (e : String),
      st.roles.lookup role = some rc →
      resolvedPrimaryName st rc = some pn →
      st.clients.lookup pn = some pc →
      pc.configured = true → pc.gen = .error e →
        callWithFailover st role
          = tryFallback st role (resolvedFallbackName st rc) [pn] := by
    intro st role rc pn pc e hr hp hq hcf hg
    unfold callWithFailover
    simp [hr, attemptPrimary, hp, attemptPrimaryClient, hq, attemptConfigured,
      hcf, hg]
  have hfall : ∀ (st : RouterState) (role : String) (fn : String) (fc : Client)
      (e : String) (inv : List String),
      fn ≠ "" → st.clients.lookup fn = some fc →
      fc.configured = true → fc.gen = .error e →
        tryFallback st role (some fn) inv = (.error (.thrown e), inv ++ [fn]) := by
    intro st role fn fc e inv hfn hlf hcf hg
    simp [tryFallback, hfn, hlf, hcf, hg]
  refine ⟨habs, hfall, ?_⟩
  intro st role rc pn pc e1 fn fc e2 hr hp hq hcf hg hf hfn hlf hcf2 hg2
  rw [habs st role rc pn pc e1 hr hp hq hcf hg, hf,
    hfall st role fn fc e2 [pn] hfn hlf hcf2 hg2]
  rfl

/-- Witness for C3: with both providers configured and throwing, the caller
sees exactly the fallback's error after both ran; with the primary throwing
and the fallback succeeding, the fallback result is returned. -/
theorem claim_C3_primary_absorbed_fallback_raises_witness :
    callWithFailover stBothBoom "COMPLIANCE"
      = (.error (.thrown "fallback exploded"), ["claude", "openai"])
    ∧ callWithFailover stPrimaryBoom "COMPLIANCE"
      = (.ok (normalizeResult genA), ["claude", "openai"]) := by
  constructor
  · exact claim_C3_primary_absorbed_fallback_raises.2.2 stBothBoom "COMPLIANCE"
      rcCompliance "claude" clientBoomP "primary exploded" "openai" clientBoomF
      "fallback exploded" rfl rfl rfl rfl rfl rfl (by decide) rfl rfl rfl
  · have h := claim_C3_primary_absorbed_fallback_raises.1 stPrimaryBoom "COMPLIANCE"
      rcCompliance "claude" clientBoomP "primary exploded" rfl rfl rfl rfl rfl
    rw [h]
    rfl

/-! ## AI-path lemmas -/

/-- A router/provider failure makes the engine's AI step degrade to none,
whether or not the AI path was enabled. -/
theorem aiResultsOf_error (u c : Bool) (e : String)
    (parse : String → Option AIAnalysisJS) : aiResultsOf u c (.error e) parse = none := by
  unfold aiResultsOf
  split <;> rfl

/-- With the AI step disabled or unconfigured, the engine's AI step is
skipped. -/
theorem aiResultsOf_disabled (u c : Bool) (ro : Except String GenResult)
    (parse : String → Option AIAnalysisJS) (h : (u && c) = false) :
    aiResultsOf u c ro parse = none := by
  simp [aiResultsOf, h]

/-- On a well-shaped raw judgment (an array violations field), the raw merge
agrees with the typed combineResults of the merge claims; an absent field or
no judgment at all merges as no judgment. -/
theorem combineResultsJS_wellFormed (basic : BasicResults) (a : AIResultsJS)
    (vs : List Violation) (h : a.analysis.violations = .list vs) :
    combineResultsJS basic (some a) = .ok (combineResults basic (some (toTyped a vs)))
    ∧ combineResultsJS basic none = .ok (combineResults basic none)
    ∧ (a.analysis.violations = .absent →
        combineResultsJS basic (some a) = .ok (combineResults basic none)) := by
  refine ⟨?_, rfl, ?_⟩
  · simp [combineResultsJS, combineResults, toTyped, h]
  · intro h2
    rw [h] at h2
    cases h2

/-- When the AI step degrades to none, checkCompliance returns the
rule-based-only result. -/
theorem checkCompliance_rule_only (rs : RulesData) (oracle : RegexOracle)
    (aiConf : Bool) (content : Content) (opts : CheckOptions)
    (ro : Except String GenResult) (parse : String → Option AIAnalysisJS)
    (h : aiResultsOf opts.useAI aiConf ro parse = none) :
    checkCompliance (some rs) oracle aiConf content opts ro parse
      = .ok (mkResult rs content opts
          (performBasicChecks rs oracle content opts.pageType) none) := by
  simp [checkCompliance, h, combineResultsJS]

/-- C2 (amended): a router/provider failure is caught by the inner catch and
degrades to a fully populated rule-based-only result with null AI metadata;
a JSON.parse failure is recovered inside performAIAnalysis with the fallback
judgment, so the call still succeeds but with non-null AI metadata; however
a JSON-valid response whose violations field is truthy and non-iterable
escapes the inner catch — the merge loop throws and the outer catch rethrows
"Compliance check failed: …" to the caller; with the AI step disabled the
call always returns a result; a missing rule set throws
"Compliance rules not available". -/
theorem claim_C2_ai_failure_handling (rs : RulesData) (oracle : RegexOracle)
    (aiConf : Bool) (content : Content) (opts : CheckOptions)
    (parse : String → Option AIAnalysisJS) (e : String) (r : GenResult)
    (ro : Except String GenResult) :
    performAIAnalysis (.error e) parse = .error ("AI analysis failed: " ++ e)
    ∧ (∃ res, checkCompliance (some rs) oracle aiConf content opts (.error e) parse
          = .ok res
        ∧ res.ai_analysis = none
        ∧ res.violations = (performBasicChecks rs oracle content opts.pageType).violations
        ∧ res.required_elements
            = (performBasicChecks rs oracle content opts.pageType).required_elements
        ∧ res.passed_rules
            = (performBasicChecks rs oracle content opts.pageType).passed_rules)
    ∧ (parse (r.text.getD "") = none → opts.useAI = true → aiConf = true →
        ∃ res, checkCompliance (some rs) oracle aiConf content opts (.ok r) parse
            = .ok res
          ∧ res.ai_analysis ≠ none
          ∧ res.violations
              = (performBasicChecks rs oracle content opts.pageType).violations)
    ∧ (∀ (a : AIAnalysisJS) (msg : String),
        parse (r.text.getD "") = some a → a.violations = .illFormed msg →
        opts.useAI = true → aiConf = true →
          checkCompliance (some rs) oracle aiConf content opts (.ok r) parse
            = .error ("Compliance check failed: " ++ msg))
    ∧ ((opts.useAI && aiConf) = false →
        ∃ res, checkCompliance (some rs) oracle aiConf content opts ro parse = .ok res)
    ∧ checkCompliance none oracle aiConf content opts ro parse
        = .error "Compliance rules not available" := by
  refine ⟨rfl, ?_, ?_, ?_, ?_, rfl⟩
  · exact ⟨_, checkCompliance_rule_only rs oracle aiConf content opts (.error e) parse
      (aiResultsOf_error opts.useAI aiConf e parse), rfl, rfl, rfl, rfl⟩
  · intro hp hu hc
    have hai : aiResultsOf opts.useAI aiConf (.ok r) parse
        = some ⟨fallbackAnalysis (r.text.getD ""), jsOrS r.model "unknown", 85/100⟩ := by
      simp [aiResultsOf, hu, hc, performAIAnalysis, hp]
    refine ⟨mkResult rs content opts
      (performBasicChecks rs oracle content opts.pageType)
      (some ⟨fallbackAnalysis (r.text.getD ""), jsOrS r.model "unknown", 85/100⟩),
      ?_, ?_, rfl⟩
    · simp [checkCompliance, hai, combineResultsJS, fallbackAnalysis, mergeAIViolations]
    · simp [mkResult]
  · intro a msg hp hv hu hc
    have hai : aiResultsOf opts.useAI aiConf (.ok r) parse
        = some ⟨a, jsOrS r.model "unknown", 85/100⟩ := by
      simp [aiResultsOf, hu, hc, performAIAnalysis, hp]
    simp [checkCompliance, hai, combineResultsJS, hv]
  · intro hd
    exact ⟨_, checkCompliance_rule_only rs oracle aiConf content opts ro parse
      (aiResultsOf_disabled opts.useAI aiConf ro parse hd)⟩

/-- C2 counterexample: with rules loaded and the AI path enabled, a
JSON-valid but ill-shaped AI response makes checkCompliance throw
"Compliance check failed: …" to the caller (an AI-path failure surfaced as
an exception, beyond rule-set loading failure), and a JSON.parse failure
yields a result whose AI metadata is not null. -/
theorem claim_C2_counterexample :
    checkCompliance (some rulesEmpty) emptyOracle true exContent opts0 (.ok genA) parseIll
      = .error "Compliance check failed: aiResults.violations is not iterable"
    ∧ (∃ res, checkCompliance (some rulesEmpty) emptyOracle true exContent opts0
          (.ok genA) parseFail = .ok res ∧ res.ai_analysis ≠ none) := by
  constructor
  · rfl
  · exact ⟨_, rfl, by simp [mkResult, aiResultsOf, performAIAnalysis, parseFail, opts0]⟩

/-- Witness for C2 at a concrete parse failure: the call succeeds, the AI
metadata is present, and the violations are exactly the rule-based ones. -/
theorem claim_C2_ai_failure_handling_witness :
    ∃ res, checkCompliance (some rulesWithBadDisclaimer) emptyOracle true exContent opts0
        (.ok genA) parseFail = .ok res
      ∧ res.ai_analysis ≠ none
      ∧ res.violations = (performBasicChecks rulesWithBadDisclaimer emptyOracle exContent
          opts0.pageType).violations :=
  (claim_C2_ai_failure_handling rulesWithBadDisclaimer emptyOracle true exContent opts0
    parseFail "e" genA (.ok genA)).2.2.1 rfl rfl rfl

/-- Witness for C7 at thresholds 90/80/70/60: every boundary score maps to
the higher tier, and 59 fails. -/
theorem claim_C7_status_boundaries_witness :
    determineStatus t0 90 = "PASS"
    ∧ determineStatus t0 80 = "PASS_WITH_NOTES"
    ∧ determineStatus t0 70 = "NEEDS_REVIEW"
    ∧ determineStatus t0 60 = "ACTION_REQUIRED"
    ∧ determineStatus t0 59 = "FAIL" := by
  have d : t0.good < t0.excellent ∧ t0.acceptable < t0.good
      ∧ t0.needs_improvement < t0.acceptable := by norm_num [t0]
  refine ⟨?_, ?_, ?_, ?_, ?_⟩
  · exact (claim_C7_status_boundaries t0 90 d.1 d.2.1 d.2.2).2.2.2.2.2.1 (by norm_num [t0])
  · exact (claim_C7_status_boundaries t0 80 d.1 d.2.1 d.2.2).2.2.2.2.2.2.1 (by norm_num [t0])
  · exact (claim_C7_status_boundaries t0 70 d.1 d.2.1 d.2.2).2.2.2.2.2.2.2.1 (by norm_num [t0])
  · exact (claim_C7_status_boundaries t0 60 d.1 d.2.1 d.2.2).2.2.2.2.2.2.2.2 (by norm_num [t0])
  · exact (claim_C7_status_boundaries t0 59 d.1 d.2.1 d.2.2).2.2.2.2.1 (by norm_num [t0])

end RTOCompliance
